import Mathlib

/-!
Verification of the core of a CRUD web-service scaffold: the schema
projection engine (`app/lib/dto.py`), the generic service layer
(`app/lib/service.py`) and the in-memory mock repository
(`tests/unit/utils.py`), shallowly embedded in Lean.

Conventions of the embedding:
* Python values that matter to the claims are modelled by `Nat`/`String`.
* A Python attribute that may be unset (or `None`) is an `Option`; an
  attribute absent from an object's `__dict__` is `none`.
* `datetime.now()` is modelled by a strictly increasing counter held in the
  repository state: each call returns the current counter and advances it.
* Raising an exception is modelled by `Except.error`; in every modelled
  operation the Python code raises before it mutates any state, so an
  `Except`-shaped result (error carries no new state) is faithful.
* Effectful zero-argument producers (`uuid4`, column default callables) are
  modelled as functions of a call index: the i-th invocation returns `f i`.
-/

namespace App

/-! ## Schema projection engine (`app/lib/dto.py`) -/

/-- The `dto.Mode` enum: visibility marks stored under the "dto" key of
`Column.info`.  Python's `Mode.private` is spelled `private_` because
`private` is a Lean keyword. -/
inductive Mode where
  | read_only
  | private_
deriving DecidableEq, Repr

/-- The `dto.Purpose` enum. -/
inductive Purpose where
  | read
  | write
deriving DecidableEq, Repr

/-- A SQLAlchemy `Column.default` as `_construct_field_info` inspects it:
either a scalar (`default.is_scalar`), a callable (`default.is_callable`,
whose `arg` takes a context dict, modelled here as already applied to the
empty context and indexed by a call counter), or something else (e.g. a
`Sequence`), which the code rejects. -/
inductive ColumnDefault where
  | scalar (arg : Nat)
  | callable (arg : Nat → Nat)
  | other

/-- The slice of a SQLAlchemy `Column` that `dto.factory` consults for a
`Mapped`-annotated attribute: its key, `column.info.get("dto")`, and
`column.default`.  The iteration order of `get_type_hints(model)` is the
declaration order, modelled by the order of a `List Column`. -/
structure Column where
  name : String
  info : Option Mode
  default : Option ColumnDefault

/-- A pydantic `FieldInfo` as `_construct_field_info` builds it:
`FieldInfo(...)` (required, no default), `FieldInfo(default=v)`, or
`FieldInfo(default_factory=lambda: default.arg({}))` (a lazy producer). -/
inductive FieldInfo where
  | required
  | default (v : Nat)
  | default_factory (f : Nat → Nat)

/-- The `ValueError("Unexpected default type")` raised by
`_construct_field_info`; the spec calls it `SchemaConstructionError`. -/
inductive SchemaError where
  | unexpectedDefaultType
deriving DecidableEq, Repr

/-- Embedding of `dto._construct_field_info(column, purpose)`:
`if purpose is Purpose.read or default is None: return FieldInfo(...)`;
then scalar defaults are embedded verbatim, callable defaults become a
`default_factory` lazy producer, and any other default raises. -/
def construct_field_info (column : Column) (purpose : Purpose) :
    Except SchemaError FieldInfo :=
  match column.default, purpose with
  | none, _ => .ok .required
  | some _, .read => .ok .required
  | some (.scalar v), .write => .ok (.default v)
  | some (.callable f), .write => .ok (.default_factory (fun i => f i))
  | some .other, .write => .error .unexpectedDefaultType

/-- Embedding of `dto._should_exclude_field(purpose, column)`. -/
def should_exclude_field (purpose : Purpose) (column : Column) : Bool :=
  if column.info = some Mode.private_ then true
  else if purpose = Purpose.write ∧ column.info = some Mode.read_only then true
  else false

/-- Embedding of `dto.factory(name, model, purpose)`.  The `name` argument
only labels the generated pydantic class and is dropped; the returned
`create_model(...)` field dictionary is modelled as the ordered association
list of `(key, field_info)` pairs.  Fields excluded by
`_should_exclude_field` are skipped; a failing `_construct_field_info`
propagates its error. -/
def factory : List Column → Purpose → Except SchemaError (List (String × FieldInfo))
  | [], _ => .ok []
  | c :: cs, purpose =>
    if should_exclude_field purpose c then factory cs purpose
    else
      match construct_field_info c purpose with
      | .error e => .error e
      | .ok fi =>
        match factory cs purpose with
        | .error e => .error e
        | .ok rest => .ok ((c.name, fi) :: rest)

/-- Pydantic's error for a missing required field at instantiation. -/
inductive InstError where
  | missingRequired
deriving DecidableEq, Repr

/-- Modelled from the spec: pydantic model instantiation of one field, which
is outside this repository.  Per the spec, a required field demands an
explicit value; a static default is used verbatim when no value is given;
and a factory default's "producer is invoked anew" on "every time a new
write-schema instance is created without an explicit value".  The `Nat`
threaded through is the producer call counter: invoking the producer
returns `f i` and advances the counter. -/
def instantiate_field (fi : FieldInfo) (explicit : Option Nat) (calls : Nat) :
    Except InstError (Nat × Nat) :=
  match explicit with
  | some v => .ok (v, calls)
  | none =>
    match fi with
    | .required => .error .missingRequired
    | .default v => .ok (v, calls)
    | .default_factory f => .ok (f calls, calls + 1)

/-! ## Entities and the in-memory mock repository (`tests/unit/utils.py`) -/

/-- An entity instance: an `orm.Base` subclass with an identity attribute
`id`, audit timestamps `created` and `updated`, and one representative
business field `name`.  `none` models an attribute that is unset (absent
from the instance's `__dict__`). -/
structure Entity where
  id : Option Nat
  created : Option Nat
  updated : Option Nat
  name : Option String
deriving DecidableEq, Repr

/-- Exceptions the mock repository raises: `check_not_found`'s not-found
error, the `assert ... , "received identified instance"` failure in `add`
(the spec's `IdentityConflict`), and the `AttributeError` a
`del data.created` raises when `created` is unset. -/
inductive RepoError where
  | notFound
  | identityConflict
  | attributeError
deriving DecidableEq, Repr

/-- State of a `GenericMockRepository`: the keyed `collection` (an ordered
mapping, as a Python dict is), plus the two effect counters of the
embedding: `clock` (next `datetime.now()` value) and `seed` (next call
index of the injected `id_factory`). -/
structure RepoState where
  store : List (Nat × Entity)
  clock : Nat
  seed : Nat
deriving DecidableEq, Repr

/-- Python dict assignment `collection[k] = v`: replace the value at an
existing key in place, otherwise append the new entry. -/
def setStore : List (Nat × Entity) → Nat → Entity → List (Nat × Entity)
  | [], k, v => [(k, v)]
  | (k', v') :: rest, k, v =>
    if k' = k then (k, v) :: rest else (k', v') :: setStore rest k v

/-- The `for k, v in data.__dict__.items(): setattr(item, k, v)` loop of
`GenericMockRepository.update`: every attribute set on `data` (keys not
starting with `_` — SQLAlchemy internals are not modelled) overwrites the
corresponding attribute of `item`; unset attributes of `data` are simply
absent from `__dict__` and leave `item` alone. -/
def mergeOnto (item data : Entity) : Entity :=
  { id := if data.id.isSome then data.id else item.id
    created := if data.created.isSome then data.created else item.created
    updated := if data.updated.isSome then data.updated else item.updated
    name := if data.name.isSome then data.name else item.name }

/-- Embedding of `GenericMockRepository.add(data)`, parameterized by the
injectable `id_factory` (modelled as a function of the call index held in
`seed`).  `assert get_id_attribute_value(data) is None` raises on an
identified instance before anything is touched; otherwise
`data.updated = data.created = now`, a fresh id is produced and set, and
the very same object is stored and returned.  The result triple is
`(returned entity, post-call value of the caller's argument, new state)`;
for `add` the first two coincide because the argument object itself is
stamped, stored and returned.  `get_id_attribute_value` lives in
`AbstractRepository` outside this tree; per the spec it is the Identity
Accessor reading the entity's identity attribute, i.e. `data.id`. -/
def GenericMockRepository.add (idf : Nat → Nat) (data : Entity) (s : RepoState) :
    Except RepoError (Entity × Entity × RepoState) :=
  match data.id with
  | some _ => .error .identityConflict
  | none =>
    let now := s.clock
    let id_ := idf s.seed
    let stored : Entity :=
      { data with created := some now, updated := some now, id := some id_ }
    .ok (stored, stored,
      { store := setStore s.store id_ stored, clock := s.clock + 1, seed := s.seed + 1 })

/-- Embedding of `GenericMockRepository.update(data)`.
`_find_or_raise_not_found(get_id_attribute_value(data))` is
`check_not_found(collection.get(id))`: `check_not_found` (in
`AbstractRepository`, outside this tree; per the spec it raises `NotFound`
on a missing entity) fails when the id is unset or absent from the
collection.  Then `del data.created` (an `AttributeError` if `created` is
unset), `data.updated = datetime.now()`, and every remaining attribute of
`data` is merged onto the stored `item`, which — being mutated in place —
is both the stored and the returned entity.  Result triple as in `add`:
`(returned entity, post-call value of the caller's argument, new state)`. -/
def GenericMockRepository.update (data : Entity) (s : RepoState) :
    Except RepoError (Entity × Entity × RepoState) :=
  match data.id with
  | none => .error .notFound
  | some i =>
    match List.lookup i s.store with
    | none => .error .notFound
    | some item =>
      match data.created with
      | none => .error .attributeError
      | some _ =>
        let arg : Entity := { data with created := none, updated := some s.clock }
        let merged := mergeOnto item arg
        .ok (merged, arg,
          { s with store := setStore s.store i merged, clock := s.clock + 1 })

/-- Embedding of `GenericMockRepository.upsert(data)`: dispatch on whether
`get_id_attribute_value(data) is None`. -/
def GenericMockRepository.upsert (idf : Nat → Nat) (data : Entity) (s : RepoState) :
    Except RepoError (Entity × Entity × RepoState) :=
  if data.id = none then GenericMockRepository.add idf data s
  else GenericMockRepository.update data s

/-- An abstract filter spec: per the spec, "a filter is any predicate
object recognized by a concrete Repository implementation". -/
def Filter : Type := Entity → Bool

/-- A keyword equality constraint of `list(**kwargs)`: attribute-based
filtering requiring one of the entity's attributes to equal a value. -/
inductive KwArg where
  | idEq (v : Option Nat)
  | nameEq (v : Option String)

/-- Whether an entity satisfies one keyword equality constraint. -/
def KwArg.sat (e : Entity) : KwArg → Bool
  | .idEq v => e.id = v
  | .nameEq v => e.name = v

/-- Embedding of `GenericMockRepository.list(*filters, **kwargs)` as
written: `return list(self.collection.values())` — both `filters` and
`kwargs` are ignored (the code carries a `TODO: support filters here`). -/
def GenericMockRepository.list (_filters : List Filter) (_kwargs : List KwArg)
    (s : RepoState) : List Entity :=
  s.store.map Prod.snd

/-- Modelled from the spec: the Repository Contract's `list`, which is not
implemented by the mock (and whose persistent implementation is outside
this tree).  Per the spec it "returns a fresh snapshot sequence of entities
matching all filters (conjunctive)", applying filter specs and
keyword-equality constraints with AND semantics, and returns an empty
sequence rather than failing when nothing matches. -/
def contract_list (filters : List Filter) (kwargs : List KwArg)
    (s : RepoState) : List Entity :=
  (s.store.map Prod.snd).filter
    (fun e => filters.all (fun f => f e) && kwargs.all (fun kw => kw.sat e))

/-! ## Service layer (`app/lib/service.py`) -/

/-- Exceptions seen by a Service caller: the Service's own
`UnauthorizedException` or a propagated repository error. -/
inductive ServiceError where
  | unauthorized
  | repo (e : RepoError)
deriving DecidableEq, Repr

/-- Modelled from the spec: `AbstractRepository.get_id_attribute_value`
(in `app/lib/repository/abc.py`, outside this tree) is the Identity
Accessor — "capability to get/set an entity's identity field value" — so
it reads the entity's identity attribute. -/
def Service.get_id_attribute_value (data : Entity) : Option Nat :=
  data.id

/-- Embedding of `Service.authorize_item_id(id_, data)`: raise
`UnauthorizedException` unless the identity carried by `data` equals
`id_`. -/
def Service.authorize_item_id (id_ : Option Nat) (data : Entity) :
    Except ServiceError Unit :=
  if Service.get_id_attribute_value data ≠ id_ then .error .unauthorized
  else .ok ()

/-- Embedding of `Service.authorize_update(id_, data)`: delegate to
`authorize_item_id`, then return `data` unchanged. -/
def Service.authorize_update (id_ : Option Nat) (data : Entity) :
    Except ServiceError Entity :=
  match Service.authorize_item_id id_ data with
  | .error e => .error e
  | .ok _ => .ok data

/-- Embedding of `Service.update(id_, data)`, generic over the wrapped
repository's `update` operation (the Service holds any
`AbstractRepository`): first `data = await self.authorize_update(id_,
data)`, then `return await self.repository.update(data)`, whose failures
propagate unchanged. -/
def Service.update {σ : Type} (repoUpdate : Entity → σ → Except RepoError (Entity × σ))
    (id_ : Option Nat) (data : Entity) (s : σ) : Except ServiceError (Entity × σ) :=
  match Service.authorize_update id_ data with
  | .error e => .error e
  | .ok d =>
    match repoUpdate d s with
    | .error e => .error (.repo e)
    | .ok r => .ok r

/-! ## Helper lemmas -/

/-- Looking up any key after a dict assignment: the assigned key maps to the
new value, every other key is untouched. -/
theorem lookup_setStore (l : List (Nat × Entity)) (k k' : Nat) (v : Entity) :
    List.lookup k (setStore l k' v) = if k = k' then some v else List.lookup k l := by
  induction l with
  | nil =>
    by_cases h : k = k'
    · simp [setStore, List.lookup, h]
    · simp [setStore, List.lookup, h, beq_false_of_ne h]
  | cons p rest ih =>
    obtain ⟨a, b⟩ := p
    by_cases ha : a = k'
    · subst ha
      by_cases h : k = a
      · simp [setStore, List.lookup, h]
      · simp [setStore, List.lookup, h, beq_false_of_ne h]
    · by_cases h : k = a
      · subst h
        simp [setStore, List.lookup, ha, Ne.symm ha]
      · simp [setStore, List.lookup, ha, h, beq_false_of_ne h, ih]

/-- Characterization of the keys of a projected schema: a name appears in
`factory cols p` exactly when some column of that name is not excluded for
purpose `p`. -/
theorem factory_keys (p : Purpose) (cols : List Column)
    (sch : List (String × FieldInfo)) (h : factory cols p = .ok sch) (n : String) :
    n ∈ sch.map Prod.fst ↔
      ∃ c, c ∈ cols ∧ c.name = n ∧ should_exclude_field p c = false := by
  induction cols generalizing sch with
  | nil =>
    rw [factory] at h
    cases h
    simp
  | cons c cs ih =>
    rw [factory] at h
    split at h
    · next hex =>
      rw [ih sch h]
      constructor
      · rintro ⟨c', hc', rfl, hinc⟩
        exact ⟨c', List.mem_cons_of_mem _ hc', rfl, hinc⟩
      · rintro ⟨c', hc', rfl, hinc⟩
        rcases List.mem_cons.mp hc' with rfl | hc''
        · rw [hex] at hinc
          cases hinc
        · exact ⟨c', hc'', rfl, hinc⟩
    · next hex =>
      have hexf : should_exclude_field p c = false := Bool.eq_false_iff.mpr hex
      split at h
      · cases h
      · next fi hcf =>
        split at h
        · cases h
        · next rest hrec =>
          cases h
          rw [List.map_cons, List.mem_cons, ih rest hrec]
          constructor
          · rintro (rfl | ⟨c', hc', rfl, hinc⟩)
            · exact ⟨c, List.mem_cons_self c cs, rfl, hexf⟩
            · exact ⟨c', List.mem_cons_of_mem _ hc', rfl, hinc⟩
          · rintro ⟨c', hc', rfl, hinc⟩
            rcases List.mem_cons.mp hc' with rfl | hc''
            · exact Or.inl rfl
            · exact Or.inr ⟨c', hc'', rfl, hinc⟩

/-- Invariant of reachable mock-repository states: every timestamp stamped
onto a stored entity was taken from `datetime.now()` at a strictly earlier
moment than the clock's current value. -/
def clockAhead (s : RepoState) : Prop :=
  ∀ i e, List.lookup i s.store = some e →
    (∀ t, e.created = some t → t < s.clock) ∧ (∀ t, e.updated = some t → t < s.clock)

/-- A fresh (empty) repository state satisfies the clock invariant. -/
theorem clockAhead_init (c n : Nat) : clockAhead ⟨[], c, n⟩ := by
  intro i e h
  simp [List.lookup] at h

/-- `add` preserves the clock invariant. -/
theorem clockAhead_add (idf : Nat → Nat) (data : Entity) (s : RepoState)
    (r a : Entity) (s' : RepoState) (hwf : clockAhead s)
    (h : GenericMockRepository.add idf data s = .ok (r, a, s')) : clockAhead s' := by
  rw [GenericMockRepository.add] at h
  split at h
  · cases h
  · cases h
    intro i e he
    rw [lookup_setStore] at he
    split at he
    · cases he
      constructor <;>
        · intro t ht
          simp only [Option.some.injEq] at ht
          show t < s.clock + 1
          omega
    · constructor
      · intro t ht
        have hb := (hwf i e he).1 t ht
        show t < s.clock + 1
        omega
      · intro t ht
        have hb := (hwf i e he).2 t ht
        show t < s.clock + 1
        omega

/-- `update` preserves the clock invariant. -/
theorem clockAhead_update (data : Entity) (s : RepoState)
    (r a : Entity) (s' : RepoState) (hwf : clockAhead s)
    (h : GenericMockRepository.update data s = .ok (r, a, s')) : clockAhead s' := by
  rw [GenericMockRepository.update] at h
  split at h
  · cases h
  · next i _ =>
    split at h
    · cases h
    · next item hitem =>
      split at h
      · cases h
      · cases h
        intro j e he
        rw [lookup_setStore] at he
        split at he
        · cases he
          have hold := hwf i item hitem
          constructor
          · intro t ht
            simp only [mergeOnto, Option.isSome_none, Bool.false_eq_true,
              if_false] at ht
            have := hold.1 t ht
            show t < s.clock + 1
            omega
          · intro t ht
            simp only [mergeOnto, Option.isSome_some, if_true,
              Option.some.injEq] at ht
            show t < s.clock + 1
            omega
        · constructor
          · intro t ht
            have hb := (hwf j e he).1 t ht
            show t < s.clock + 1
            omega
          · intro t ht
            have hb := (hwf j e he).2 t ht
            show t < s.clock + 1
            omega

/-- `upsert` preserves the clock invariant. -/
theorem clockAhead_upsert (idf : Nat → Nat) (data : Entity) (s : RepoState)
    (r a : Entity) (s' : RepoState) (hwf : clockAhead s)
    (h : GenericMockRepository.upsert idf data s = .ok (r, a, s')) : clockAhead s' := by
  rw [GenericMockRepository.upsert] at h
  split at h
  · exact clockAhead_add idf data s r a s' hwf h
  · exact clockAhead_update data s r a s' hwf h

/-- Helper: a column whose default is neither scalar nor callable makes
`_construct_field_info` raise for the write purpose. -/
theorem construct_field_info_other_write (c : Column)
    (hbad : c.default = some ColumnDefault.other) :
    construct_field_info c Purpose.write = .error SchemaError.unexpectedDefaultType := by
  simp [construct_field_info, hbad]

/-! ## Claims -/

/-- C1: For every identifier `id_` and every entity `data` whose identity
attribute differs from `id_`, `Service.update(id_, data)` raises
`Unauthorized`.  The theorem quantifies over the wrapped repository's
entire `update` operation and over its state, and the result is the bare
`unauthorized` error for every choice of them: the `authorize_item_id` hook
completes (and fails) before any repository call begins, the repository's
`update` is never invoked, and the repository state is unchanged (an
`Except.error` outcome carries no new state, and the Python `raise` in
`authorize_item_id` happens before any repository code runs). -/
theorem c1_service_update_unauthorized {σ : Type}
    (repoUpdate : Entity → σ → Except RepoError (Entity × σ))
    (id_ : Option Nat) (data : Entity) (s : σ)
    (h : data.id ≠ id_) :
    Service.update repoUpdate id_ data s = .error .unauthorized := by
  simp only [Service.update, Service.authorize_update, Service.authorize_item_id,
    Service.get_id_attribute_value, if_pos h]

/-- Witness for C1: updating under route identifier 1 with an entity
carrying identity 2, against the mock repository, yields `unauthorized`. -/
theorem c1_witness :
    Service.update
      (fun e st =>
        match GenericMockRepository.update e st with
        | .error err => .error err
        | .ok (r, _, st') => .ok (r, st'))
      (some 1) ⟨some 2, none, none, some "d"⟩ (⟨[], 0, 0⟩ : RepoState)
      = .error .unauthorized :=
  c1_service_update_unauthorized _ _ _ _ (by decide)

/-- C3: `add(e)` on an entity that already carries an identity fails with
the identity-conflict error (the mock's `assert ... is None` failure, the
spec's `IdentityConflict`), a distinct constructor of the error type; the
assert is the first statement of `add`, so the failing call returns before
any mutation and the backing store is unchanged (the `Except.error` result
carries no new state). -/
theorem c3_add_identified_conflict (idf : Nat → Nat) (data : Entity) (i : Nat)
    (hid : data.id = some i) (s : RepoState) :
    GenericMockRepository.add idf data s = .error .identityConflict := by
  simp only [GenericMockRepository.add, hid]

/-- Witness for C3: adding an entity with identity 5 to an empty repository
fails with the identity-conflict error. -/
theorem c3_witness :
    GenericMockRepository.add (fun n => n) ⟨some 5, none, none, some "a"⟩
      (⟨[], 0, 0⟩ : RepoState) = .error .identityConflict :=
  c3_add_identified_conflict (fun n => n) _ 5 rfl _

/-- C9: `upsert(e)` is extensionally equal to `add(e)` when `e` carries no
identity and to `update(e)` when it does — the whole result (returned
entity, post-call argument, new state, or the propagated failure) of the
corresponding operation. -/
theorem c9_upsert_dispatches_to_add_or_update (idf : Nat → Nat) (data : Entity)
    (s : RepoState) :
    (data.id = none →
      GenericMockRepository.upsert idf data s = GenericMockRepository.add idf data s)
    ∧ (data.id ≠ none →
      GenericMockRepository.upsert idf data s = GenericMockRepository.update data s) := by
  constructor
  · intro h
    rw [GenericMockRepository.upsert, if_pos h]
  · intro h
    rw [GenericMockRepository.upsert, if_neg h]

/-- Witness for C9: an unidentified entity routes to `add`, an identified
one routes to `update` (here hitting its not-found failure, which upsert
propagates identically). -/
theorem c9_witness :
    GenericMockRepository.upsert (fun n => n) ⟨none, none, none, some "c"⟩
        (⟨[], 0, 0⟩ : RepoState)
      = GenericMockRepository.add (fun n => n) ⟨none, none, none, some "c"⟩ ⟨[], 0, 0⟩
    ∧ GenericMockRepository.upsert (fun n => n) ⟨some 3, some 0, some 0, some "d"⟩
        (⟨[], 5, 0⟩ : RepoState)
      = GenericMockRepository.update ⟨some 3, some 0, some 0, some "d"⟩ ⟨[], 5, 0⟩ :=
  ⟨(c9_upsert_dispatches_to_add_or_update _ _ _).1 rfl,
   (c9_upsert_dispatches_to_add_or_update _ _ _).2 (by decide)⟩

/-- C5 (code bug): the mock repository's `list` ignores its filters and
keyword constraints (`return list(self.collection.values())`, with a
`TODO: support filters here`), while the Repository Contract it must
reproduce returns only the entities matching all constraints
conjunctively.  At a store holding one entity and a filter rejecting
everything, the mock returns the entity anyway where the contract returns
the empty sequence. -/
theorem c5_mock_list_ignores_filters :
    GenericMockRepository.list [fun _ => false] []
        (⟨[(1, ⟨some 1, some 0, some 0, some "a"⟩)], 1, 1⟩ : RepoState)
      = [⟨some 1, some 0, some 0, some "a"⟩]
    ∧ contract_list [fun _ => false] []
        (⟨[(1, ⟨some 1, some 0, some 0, some "a"⟩)], 1, 1⟩ : RepoState)
      = ([] : List Entity) :=
  ⟨rfl, rfl⟩

/-- C7: for a column with a callable (factory) default, the write-purpose
field carries a lazy producer, and each schema instantiation without an
explicit value invokes the producer anew: two successive instantiations
perform two separate producer calls (the call counter advances twice) and
obtain the two independently produced values `f w` and `f (w + 1)`, never
one shared pre-computed value. -/
theorem c7_factory_default_invoked_anew (f : Nat → Nat) (nm : String)
    (m : Option Mode) (w : Nat) :
    construct_field_info ⟨nm, m, some (.callable f)⟩ Purpose.write
      = .ok (.default_factory f)
    ∧ instantiate_field (.default_factory f) none w = .ok (f w, w + 1)
    ∧ instantiate_field (.default_factory f) none (w + 1) = .ok (f (w + 1), w + 2) :=
  ⟨rfl, rfl, rfl⟩

/-- Witness for C7 at the producer `fun i => i + 7` starting from call
counter 0: the two instantiations yield 7 and 8 — two distinct values from
two distinct calls. -/
theorem c7_witness :
    construct_field_info ⟨"id", some Mode.read_only, some (.callable (fun i => i + 7))⟩
        Purpose.write
      = .ok (.default_factory (fun i => i + 7))
    ∧ instantiate_field (.default_factory (fun i => i + 7)) none 0 = .ok (7, 1)
    ∧ instantiate_field (.default_factory (fun i => i + 7)) none 1 = .ok (8, 2) :=
  c7_factory_default_invoked_anew (fun i => i + 7) "id" (some Mode.read_only) 0

/-- C6 counterexample: the claim says projection fails whenever the
metadata contains a field with an unrecognized default kind, but the code
only inspects defaults for the write purpose and only for included fields:
read-purpose projection of a field with an unrecognized default succeeds,
and so does write-purpose projection when that field is `private`
(excluded before its default is inspected). -/
theorem c6_counterexample :
    factory [⟨"f", none, some ColumnDefault.other⟩] Purpose.read
      = .ok [("f", FieldInfo.required)]
    ∧ factory [⟨"p", some Mode.private_, some ColumnDefault.other⟩] Purpose.write
      = .ok [] :=
  ⟨rfl, rfl⟩

/-- C6 (amended): write-purpose projection of a metadata containing a
non-excluded field whose default kind is unrecognized (neither absent,
scalar, nor callable) fails with the schema-construction error (the
`ValueError("Unexpected default type")`), a distinct error kind;
read-purpose projection never inspects defaults and cannot fail this way. -/
theorem c6_write_unrecognized_default_fails (cols : List Column) (c : Column)
    (hmem : c ∈ cols) (hinc : should_exclude_field Purpose.write c = false)
    (hbad : c.default = some ColumnDefault.other) :
    factory cols Purpose.write = .error SchemaError.unexpectedDefaultType := by
  induction cols with
  | nil => cases hmem
  | cons d ds ih =>
    rcases List.mem_cons.mp hmem with rfl | hmem'
    · rw [factory, if_neg (by simp [hinc]), construct_field_info_other_write c hbad]
    · by_cases hex : should_exclude_field Purpose.write d
      · rw [factory, if_pos hex]
        exact ih hmem'
      · rw [factory, if_neg hex]
        cases hcf : construct_field_info d Purpose.write with
        | error e =>
          cases e
          rfl
        | ok fi =>
          rw [ih hmem']

/-- Witness for the amended C6: a single included column with a sequence
default makes write-purpose projection fail. -/
theorem c6_witness :
    factory [⟨"f", none, some ColumnDefault.other⟩] Purpose.write
      = .error SchemaError.unexpectedDefaultType :=
  c6_write_unrecognized_default_fails _ ⟨"f", none, some ColumnDefault.other⟩
    (List.Mem.head _) rfl rfl

/-- C2: for any entity metadata whose column names are distinct (as they
are in a Python mapping) and any column `c` of it, the projected schemas
contain exactly the fields visibility permits: a `private` column is
absent from both the read- and the write-purpose schema; a `read_only`
column is present in the read-purpose schema and absent from the
write-purpose schema; an unmarked column is present in both. -/
theorem c2_visibility_projection (cols : List Column) (c : Column)
    (hmem : c ∈ cols) (hnd : (cols.map Column.name).Nodup)
    (sr sw : List (String × FieldInfo))
    (hr : factory cols Purpose.read = .ok sr)
    (hw : factory cols Purpose.write = .ok sw) :
    (c.info = some Mode.private_ →
      c.name ∉ sr.map Prod.fst ∧ c.name ∉ sw.map Prod.fst)
    ∧ (c.info = some Mode.read_only →
      c.name ∈ sr.map Prod.fst ∧ c.name ∉ sw.map Prod.fst)
    ∧ (c.info = none →
      c.name ∈ sr.map Prod.fst ∧ c.name ∈ sw.map Prod.fst) := by
  have hkr := factory_keys Purpose.read cols sr hr c.name
  have hkw := factory_keys Purpose.write cols sw hw c.name
  have huniq : ∀ c', c' ∈ cols → c'.name = c.name → c' = c :=
    fun c' hc' hn => List.inj_on_of_nodup_map hnd hc' hmem hn
  refine ⟨fun hpriv => ⟨?_, ?_⟩, fun hro => ⟨?_, ?_⟩, fun hdef => ⟨?_, ?_⟩⟩
  · intro hin
    obtain ⟨c', hc', hn, hinc⟩ := hkr.mp hin
    rw [huniq c' hc' hn] at hinc
    simp [should_exclude_field, hpriv] at hinc
  · intro hin
    obtain ⟨c', hc', hn, hinc⟩ := hkw.mp hin
    rw [huniq c' hc' hn] at hinc
    simp [should_exclude_field, hpriv] at hinc
  · exact hkr.mpr ⟨c, hmem, rfl, by simp [should_exclude_field, hro]⟩
  · intro hin
    obtain ⟨c', hc', hn, hinc⟩ := hkw.mp hin
    rw [huniq c' hc' hn] at hinc
    simp [should_exclude_field, hro] at hinc
  · exact hkr.mpr ⟨c, hmem, rfl, by simp [should_exclude_field, hdef]⟩
  · exact hkw.mpr ⟨c, hmem, rfl, by simp [should_exclude_field, hdef]⟩

/-- Witness for C2, at the spec's own end-to-end scenario
`Widget{id: read_only, name: unmarked, secret: private}`: the `secret`
column is absent from both projected schemas (read schema `{id, name}`,
write schema `{name}`). -/
theorem c2_witness :
    "secret" ∉ ([("id", FieldInfo.required), ("name", FieldInfo.required)]).map Prod.fst
    ∧ "secret" ∉ ([("name", FieldInfo.required)]).map Prod.fst :=
  (c2_visibility_projection
    [⟨"id", some Mode.read_only, none⟩, ⟨"name", none, none⟩,
      ⟨"secret", some Mode.private_, none⟩]
    ⟨"secret", some Mode.private_, none⟩
    (List.Mem.tail _ (List.Mem.tail _ (List.Mem.head _)))
    (by decide) _ _ rfl rfl).1 rfl

/-- C4: a successful `update(e)` on an entity stored under `e`'s identity
leaves the stored entity's `created` unchanged, merges every attribute `e`
carries other than `created` onto the stored instance (the caller's copy
overwrites the stored business fields, here `name`), and sets `updated` to
the current clock, which — in any state satisfying the reachability
invariant `clockAhead` — is strictly greater than the stored entity's
previous `updated` value. -/
theorem c4_update_merges_and_bumps_updated (data item : Entity) (i : Nat)
    (s : RepoState) (hid : data.id = some i)
    (hfound : List.lookup i s.store = some item)
    (hc : data.created.isSome = true) (hwf : clockAhead s) :
    ∃ merged : Entity,
      GenericMockRepository.update data s =
        .ok (merged, { data with created := none, updated := some s.clock },
          { s with store := setStore s.store i merged, clock := s.clock + 1 })
      ∧ merged.created = item.created
      ∧ merged.updated = some s.clock
      ∧ merged.id = some i
      ∧ (∀ v, data.name = some v → merged.name = some v)
      ∧ (∀ t, item.updated = some t → t < s.clock) := by
  obtain ⟨cv, hcv⟩ := Option.isSome_iff_exists.mp hc
  refine ⟨mergeOnto item { data with created := none, updated := some s.clock },
    ?_, ?_, ?_, ?_, ?_, ?_⟩
  · simp only [GenericMockRepository.update, hid, hfound, hcv]
  · simp [mergeOnto]
  · simp [mergeOnto]
  · simp [mergeOnto, hid]
  · intro v hv
    simp [mergeOnto, hv]
  · exact fun t ht => (hwf i item hfound).2 t ht

/-- Witness for C4: updating the stored entity of identity 1 (`name "a"`,
timestamps 0) with `name "b"` at clock 2 keeps `created = 0`, overwrites
`name`, and bumps `updated` from 0 to 2. -/
theorem c4_witness :
    ∃ merged : Entity,
      GenericMockRepository.update ⟨some 1, some 0, some 1, some "b"⟩
          (⟨[(1, ⟨some 1, some 0, some 0, some "a"⟩)], 2, 1⟩ : RepoState)
        = .ok (merged, ⟨some 1, none, some 2, some "b"⟩,
            (⟨[(1, merged)], 3, 1⟩ : RepoState))
      ∧ merged.created = some 0
      ∧ merged.updated = some 2
      ∧ merged.id = some 1
      ∧ (∀ v, (some "b" : Option String) = some v → merged.name = some v)
      ∧ (∀ t, (some 0 : Option Nat) = some t → t < 2) := by
  have hwf : clockAhead ⟨[(1, ⟨some 1, some 0, some 0, some "a"⟩)], 2, 1⟩ := by
    intro i e he
    by_cases hi : i = 1
    · subst hi
      simp [List.lookup] at he
      subst he
      constructor <;>
        · intro t ht
          simp at ht
          show t < 2
          omega
    · simp [List.lookup, beq_false_of_ne hi] at he
  exact c4_update_merges_and_bumps_updated ⟨some 1, some 0, some 1, some "b"⟩
    ⟨some 1, some 0, some 0, some "a"⟩ 1
    ⟨[(1, ⟨some 1, some 0, some 0, some "a"⟩)], 2, 1⟩ rfl rfl rfl hwf

/-- C8: `add(e)` on an unidentified entity assigns the identity produced
by the injected strategy at its current call index, stamps `created` and
`updated` with one and the same timestamp (the clock at the call), stores
the entity under the new identity, and returns exactly the stored entity
(both result components are the stored instance). -/
theorem c8_add_assigns_identity_and_stamps (idf : Nat → Nat) (data : Entity)
    (s : RepoState) (h : data.id = none) :
    ∃ stored : Entity, ∃ s' : RepoState,
      GenericMockRepository.add idf data s = .ok (stored, stored, s')
      ∧ stored.id = some (idf s.seed)
      ∧ stored.created = some s.clock
      ∧ stored.updated = some s.clock
      ∧ stored.name = data.name
      ∧ List.lookup (idf s.seed) s'.store = some stored
      ∧ s'.clock = s.clock + 1 ∧ s'.seed = s.seed + 1 := by
  refine ⟨{ data with created := some s.clock, updated := some s.clock, id := some (idf s.seed) }, { store := setStore s.store (idf s.seed) { data with created := some s.clock, updated := some s.clock, id := some (idf s.seed) }, clock := s.clock + 1, seed := s.seed + 1 }, ?_, rfl, rfl, rfl, rfl, ?_, rfl, rfl⟩
  · simp only [GenericMockRepository.add, h]
  · rw [lookup_setStore]
    simp

/-- Witness for C8: adding `Widget(name = "a")` to an empty repository with
identity strategy `fun n => n + 100` at clock 0 yields id 100 and
`created = updated = 0`, stored and returned. -/
theorem c8_witness :
    ∃ stored : Entity, ∃ s' : RepoState,
      GenericMockRepository.add (fun n => n + 100) ⟨none, none, none, some "a"⟩
          (⟨[], 0, 0⟩ : RepoState)
        = .ok (stored, stored, s')
      ∧ stored.id = some 100
      ∧ stored.created = some 0
      ∧ stored.updated = some 0
      ∧ stored.name = some "a"
      ∧ List.lookup 100 s'.store = some stored
      ∧ s'.clock = 1 ∧ s'.seed = 1 :=
  c8_add_assigns_identity_and_stamps (fun n => n + 100) _ _ rfl

/-- C10: the mock's `update(e)` mutates the caller's argument object
itself: on a successful call, the argument comes back with its `created`
attribute deleted (`del data.created`) and its `updated` attribute set to
the merge timestamp, its other attributes untouched — so it is no longer
equal to the pre-call snapshot. -/
theorem c10_update_mutates_caller_argument (data : Entity) (i : Nat)
    (s : RepoState) (hid : data.id = some i)
    (hfound : (List.lookup i s.store).isSome = true)
    (hc : data.created.isSome = true) :
    ∃ ret arg : Entity, ∃ s' : RepoState,
      GenericMockRepository.update data s = .ok (ret, arg, s')
      ∧ arg.created = none
      ∧ arg.updated = some s.clock
      ∧ arg.id = data.id
      ∧ arg.name = data.name
      ∧ arg ≠ data := by
  obtain ⟨item, hitem⟩ := Option.isSome_iff_exists.mp hfound
  obtain ⟨cv, hcv⟩ := Option.isSome_iff_exists.mp hc
  refine ⟨mergeOnto item { data with created := none, updated := some s.clock }, { data with created := none, updated := some s.clock }, { s with store := setStore s.store i (mergeOnto item { data with created := none, updated := some s.clock }), clock := s.clock + 1 }, ?_, rfl, rfl, rfl, rfl, ?_⟩
  · simp only [GenericMockRepository.update, hid, hitem, hcv]
  · intro habs
    have h2 := congrArg Entity.created habs
    simp [hcv] at h2

/-- Witness for C10: after updating with the entity
`⟨id 1, created 0, updated 0, name "b"⟩` at clock 2, the caller's argument
has lost `created` and carries `updated = 2`: it no longer equals the
pre-call value. -/
theorem c10_witness :
    ∃ ret arg : Entity, ∃ s' : RepoState,
      GenericMockRepository.update ⟨some 1, some 0, some 0, some "b"⟩
          (⟨[(1, ⟨some 1, some 0, some 0, some "a"⟩)], 2, 1⟩ : RepoState)
        = .ok (ret, arg, s')
      ∧ arg.created = none
      ∧ arg.updated = some 2
      ∧ arg.id = some 1
      ∧ arg.name = some "b"
      ∧ arg ≠ ⟨some 1, some 0, some 0, some "b"⟩ :=
  c10_update_mutates_caller_argument _ 1 _ rfl rfl rfl

end App
